import Mathlib

/-!
Shallow embedding of the order scheduling and execution engine of the
Solana trading bot (src/services/trading_engine.py, src/services/database.py,
src/config/settings.py), with theorems settling claims C1 to C10.

Conventions of the embedding:
* Python floats are modelled as rationals; datetimes as rational
  timestamps in seconds.
* Loosely typed dictionaries become structures with `Option` fields;
  `d.get(k, v)` becomes `Option.getD`; a plain subscript `d[k]` on a
  missing key raises KeyError, which the enclosing try/except of the
  source turns into a skip, modelled by matching on the `Option`.
* MongoDB ids are typed BSON values: documents inserted through
  `insert_one` carry ObjectId ids, while several queries of the source
  filter on the hex-string rendering `str(object_id)` of an id.  BSON
  comparison is typed, so a string filter never matches an ObjectId id;
  the type `BsonId` makes this visible.
* External collaborators (price oracle, swap venue, fee service, user
  settings store) are oracle inputs: their results are parameters of
  each tick or call.
-/

namespace TradingBot

/-- A MongoDB id value as it appears in a document or in a query filter.
`objectId n` models the ObjectId produced by `insert_one`; `strId n`
models the hex string `str(object_id)` carrying the same payload `n`.
BSON comparison is typed, so `objectId n` never equals `strId n`. -/
inductive BsonId
| objectId : Nat → BsonId
| strId : Nat → BsonId
deriving DecidableEq

/-- The function str(x) applied to an id: the hex-string rendering keeps the payload. -/
def strOf : BsonId → BsonId
| .objectId n => .strId n
| .strId n => .strId n

/-- The constructor ObjectId(x) applied to an id string: parsing the hex string
reconstructs the ObjectId with the same payload. -/
def objectIdOf : BsonId → BsonId
| .strId n => .objectId n
| .objectId n => .objectId n

/-- Whether an id is in ObjectId form (every id created by `insert_one` is). -/
def isObjectId : BsonId → Bool
| .objectId _ => true
| .strId _ => false

/-- config/settings.py: MIN_TRADE_AMOUNT, default 0.01 SOL. -/
def MIN_TRADE_AMOUNT : ℚ := 1/100

/-- config/settings.py: MAX_TRADE_AMOUNT, default 10.0 SOL. -/
def MAX_TRADE_AMOUNT : ℚ := 10

/-- config/settings.py: DEFAULT_SLIPPAGE, default 0.5 percent. -/
def DEFAULT_SLIPPAGE : ℚ := 1/2

/-! ## Order intake validation (claim C8)

trading_engine.py lines 18-50 define the TradeType enum and the TradeOrder
dataclass; lines 186-226 define `_validate_order`. -/

/-- trading_engine.py TradeType (lines 18-24). -/
inductive TradeType
| buy | sell | limit_buy | limit_sell | copy_trade | snipe
deriving DecidableEq

/-- trading_engine.py TradeOrder dataclass (lines 33-50). -/
structure TradeOrder where
  user_id : Nat
  trade_type : TradeType
  input_token : String
  output_token : String
  amount : ℚ
  price : Option ℚ := none
  slippage : ℚ := DEFAULT_SLIPPAGE
  stop_loss : Option ℚ := none
  take_profit : Option ℚ := none
  expires_at : Option ℚ := none
  copy_wallet : Option String := none
  created_at : ℚ := 0
deriving DecidableEq

/-- The user document consulted by `_validate_order`: the result of
`db.get_user`.  A missing `subscription_tier` key means the free tier; a
missing `settings.max_trade_amount` falls back to MAX_TRADE_AMOUNT. -/
structure UserDoc where
  subscription_tier : Option String := none
  max_trade_amount : Option ℚ := none
deriving DecidableEq

/-- Outcome of `_validate_order`.  Each failure constructor stands for the
message string the source returns for that check. -/
inductive VResult
| user_not_found            -- "User not found"
| copy_requires_premium     -- "Copy trading requires premium subscription"
| below_min_amount          -- "Minimum trade amount is ... SOL"
| above_max_amount          -- "Maximum trade amount is ... SOL"
| exceeds_user_max          -- "Amount exceeds your maximum trade limit ..."
| invalid_input_token       -- "Invalid input token address"
| invalid_output_token      -- "Invalid output token address"
| slippage_out_of_range     -- "Slippage must be between 0.1 and 50 ..."
| ok                        -- "Order validated successfully"
deriving DecidableEq

/-- trading_engine.py `_validate_order` (lines 186-226).  `user` is the
`db.get_user` result and `valid_address` the
`SolanaService.validate_address` oracle. -/
def validate_order (user : Option UserDoc) (valid_address : String → Bool)
    (order : TradeOrder) : VResult :=
  match user with
  | none => .user_not_found
  | some u =>
    let user_tier := u.subscription_tier.getD "free"
    if user_tier = "free" ∧ order.trade_type = .copy_trade then .copy_requires_premium
    else if order.amount < MIN_TRADE_AMOUNT then .below_min_amount
    else if order.amount > MAX_TRADE_AMOUNT then .above_max_amount
    else if order.amount > u.max_trade_amount.getD MAX_TRADE_AMOUNT then .exceeds_user_max
    else if ¬ valid_address order.input_token then .invalid_input_token
    else if ¬ valid_address order.output_token then .invalid_output_token
    else if order.slippage < 1/10 ∨ order.slippage > 50 then .slippage_out_of_range
    else .ok

/-- Generic first-failing-check evaluator: each entry carries the flag
saying the check passed and the reason reported when it fails. -/
def first_failing : List (Bool × VResult) → VResult
| [] => .ok
| (passed, reason) :: rest => if passed then first_failing rest else reason

/-- Concrete free-tier user for the C8 counterexample. -/
def c8_user : UserDoc := {}

/-- A copy-trade order whose amount is far below the global minimum. -/
def c8_order : TradeOrder :=
  { user_id := 1, trade_type := .copy_trade, input_token := "inTok",
    output_token := "outTok", amount := 1/1000 }

/-- A snipe order by a free-tier user that passes every coded check. -/
def c8_snipe_order : TradeOrder :=
  { user_id := 1, trade_type := .snipe, input_token := "inTok",
    output_token := "outTok", amount := 1 }

/-- Claim C8 as stated is false: validation does not run cheapest-first
with feature gating last.  For a free-tier user submitting a copy-trade
order whose amount is below the global minimum, the first failing check in
the claimed order is the global amount bound, yet the code reports the
premium-gating reason, because the tier check runs first; moreover a
snipe order by a free-tier user passes validation, so the snipe kind is
not feature-gated at all. -/
theorem C8_counterexample :
    validate_order (some c8_user) (fun _ => true) c8_order =
        .copy_requires_premium ∧
    validate_order (some c8_user) (fun _ => true) c8_order ≠
        .below_min_amount ∧
    c8_order.amount < MIN_TRADE_AMOUNT ∧
    validate_order (some c8_user) (fun _ => true) c8_snipe_order = .ok := by
  refine ⟨?_, ?_, ?_, ?_⟩ <;>
    norm_num [validate_order, c8_user, c8_order, c8_snipe_order,
      MIN_TRADE_AMOUNT, MAX_TRADE_AMOUNT, DEFAULT_SLIPPAGE] <;>
    decide

/-- Claim C8 amended: for an existing user, `_validate_order` returns the
reason of the first failing check in the order the code actually uses:
premium gating of the copy-trade kind (only that kind), then the global
minimum and maximum amount bounds, then the per-user maximum, then
address validity of the input and output tokens, then the slippage
bounds; it creates no state (it is a pure function of its inputs). -/
theorem C8_amended (u : UserDoc) (valid_address : String → Bool)
    (o : TradeOrder) :
    validate_order (some u) valid_address o =
      first_failing [
        (decide ¬(u.subscription_tier.getD "free" = "free" ∧
            o.trade_type = TradeType.copy_trade), .copy_requires_premium),
        (decide ¬(o.amount < MIN_TRADE_AMOUNT), .below_min_amount),
        (decide ¬(o.amount > MAX_TRADE_AMOUNT), .above_max_amount),
        (decide ¬(o.amount > u.max_trade_amount.getD MAX_TRADE_AMOUNT),
          .exceeds_user_max),
        (valid_address o.input_token, .invalid_input_token),
        (valid_address o.output_token, .invalid_output_token),
        (decide ¬(o.slippage < 1/10 ∨ o.slippage > 50),
          .slippage_out_of_range)] := by
  by_cases h1 : u.subscription_tier.getD "free" = "free" ∧
      o.trade_type = TradeType.copy_trade
  · simp [validate_order, first_failing, h1]
  · by_cases h2 : o.amount < MIN_TRADE_AMOUNT
    · simp [validate_order, first_failing, h1, h2]
    · by_cases h3 : o.amount > MAX_TRADE_AMOUNT
      · simp [validate_order, first_failing, h1, h2, h3]
      · by_cases h4 : o.amount > u.max_trade_amount.getD MAX_TRADE_AMOUNT
        · simp [validate_order, first_failing, h1, h2, h3, h4]
        · by_cases h5 : valid_address o.input_token
          · by_cases h6 : valid_address o.output_token
            · by_cases h7 : o.slippage < 1/10 ∨ o.slippage > 50
              · have h7n : o.slippage < 10⁻¹ ∨ 50 < o.slippage := by
                  rcases h7 with h | h
                  · exact Or.inl (by rwa [one_div] at h)
                  · exact Or.inr h
                have h7f : ¬(10⁻¹ ≤ o.slippage ∧ o.slippage ≤ 50) := by
                  rcases h7n with h | h
                  · exact fun hc => absurd hc.1 (not_le.mpr h)
                  · exact fun hc => absurd hc.2 (not_le.mpr h)
                simp [validate_order, first_failing, h1, h2, h3, h4, h5,
                  h6, h7n, h7f]
              · push_neg at h7
                have h7c : 10⁻¹ ≤ o.slippage ∧ o.slippage ≤ 50 :=
                  ⟨by rw [← one_div]; exact h7.1, h7.2⟩
                have h7n : ¬(o.slippage < 10⁻¹ ∨ 50 < o.slippage) := by
                  push_neg
                  exact h7c
                simp [validate_order, first_failing, h1, h2, h3, h4, h5,
                  h6, h7n, h7c]
            · simp [validate_order, first_failing, h1, h2, h3, h4, h5, h6]
          · simp [validate_order, first_failing, h1, h2, h3, h4, h5]

/-! ## Snipe allocation budget (claim C2)

trading_engine.py `create_snipe_order` (lines 1098-1138) creates the
snipe_orders document with total_spent 0; `execute_snipe_trade`
(lines 1140-1206) performs one bounded increment. -/

/-- One entry of the executed_trades list of a snipe order
(trading_engine.py lines 1165-1172; the recorded execution price is an
oracle value). -/
structure ExecutedSnipeTrade where
  token_address : String
  token_symbol : String
  amount : ℚ
  signature : String
  price_at_execution : ℚ
deriving DecidableEq

/-- A document of the snipe_orders collection, fields as written by
`create_snipe_order` (lines 1113-1125). -/
structure SnipeOrder where
  user_id : Nat
  max_amount : ℚ
  slippage : ℚ
  take_profit : ℚ
  stop_loss : ℚ
  total_spent : ℚ := 0
  executed_trades : List ExecutedSnipeTrade := []
deriving DecidableEq

/-- Result of one `execute_snipe_trade` call. -/
inductive SnipeResult
| max_spent               -- "Max amount already spent"
| insufficient_remaining  -- "Insufficient remaining amount"
| child_failed            -- execute_market_buy reported failure
| executed (amount : ℚ)
deriving DecidableEq

/-- Inputs of one `execute_snipe_trade` call that come from outside the
allocation: the detected token, its symbol, the venue signature, the
recorded execution price, and the success flag of the
`execute_market_buy` collaborator call for this increment. -/
structure SnipeCall where
  token_address : String
  token_symbol : String
  signature : String
  price_at_execution : ℚ
  buy_ok : Bool
deriving DecidableEq

/-- trading_engine.py `execute_snipe_trade` (lines 1140-1206): reject when
the budget is already spent, size the increment as the minimum of the
remaining budget and 20 percent of max_amount, skip increments below
0.01, and on a successful child buy append the executed trade and add the
increment to total_spent. -/
def execute_snipe_trade (o : SnipeOrder) (call : SnipeCall) :
    SnipeOrder × SnipeResult :=
  if o.total_spent ≥ o.max_amount then (o, .max_spent)
  else
    let remaining_amount := o.max_amount - o.total_spent
    let trade_amount := min remaining_amount (o.max_amount * (2/10))
    if trade_amount < 1/100 then (o, .insufficient_remaining)
    else if call.buy_ok then
      ({ o with
          executed_trades := o.executed_trades ++
            [{ token_address := call.token_address,
               token_symbol := call.token_symbol,
               amount := trade_amount,
               signature := call.signature,
               price_at_execution := call.price_at_execution }],
          total_spent := o.total_spent + trade_amount },
       .executed trade_amount)
    else (o, .child_failed)

/-- A sequence of `execute_snipe_trade` calls against one allocation. -/
def run_snipe (o : SnipeOrder) : List SnipeCall → SnipeOrder
| [] => o
| call :: rest => run_snipe (execute_snipe_trade o call).1 rest

/-- A freshly created allocation with budget cap 1.0 SOL. -/
def c2_init : SnipeOrder :=
  { user_id := 1, max_amount := 1, slippage := 1, take_profit := 50,
    stop_loss := 20 }

/-- Five successful child buys against `c2_init`. -/
def c2_calls : List SnipeCall :=
  List.replicate 5
    { token_address := "TOK", token_symbol := "TOK", signature := "sig",
      price_at_execution := 1, buy_ok := true }

/-- One `execute_snipe_trade` call preserves the budget invariant. -/
lemma execute_snipe_trade_spent_le (o : SnipeOrder) (call : SnipeCall)
    (h : o.total_spent ≤ o.max_amount) :
    (execute_snipe_trade o call).1.total_spent ≤
      (execute_snipe_trade o call).1.max_amount := by
  simp only [execute_snipe_trade]
  split_ifs with h1 h2 h3
  · exact h
  · exact h
  · have hmin : min (o.max_amount - o.total_spent) (o.max_amount * (2/10)) ≤
        o.max_amount - o.total_spent := min_le_left _ _
    simp only
    linarith
  · exact h

/-- Claim C2: for every snipe allocation with budget cap max_amount, after
any sequence of execute_snipe_trade calls the invariant
total_spent ≤ max_amount holds (from any state already satisfying it, in
particular from the freshly created state with total_spent 0). -/
theorem C2_snipe_budget_invariant (o : SnipeOrder) (calls : List SnipeCall)
    (h : o.total_spent ≤ o.max_amount) :
    (run_snipe o calls).total_spent ≤ (run_snipe o calls).max_amount := by
  induction calls generalizing o with
  | nil => simpa [run_snipe] using h
  | cons call rest ih =>
    simp only [run_snipe]
    exact ih _ (execute_snipe_trade_spent_le o call h)

/-- Witness for C2: the invariant holds concretely after five successful
increments against a fresh cap-1.0 allocation. -/
theorem C2_snipe_budget_invariant_witness :
    (run_snipe c2_init c2_calls).total_spent ≤
      (run_snipe c2_init c2_calls).max_amount :=
  C2_snipe_budget_invariant c2_init c2_calls (by norm_num [c2_init])

/-! ## Stop-loss monitoring (claims C6 and C7)

database.py `get_completed_trades_with_stop_loss` (lines 898-909) selects
the trades scanned by a tick; trading_engine.py `_check_stop_loss`
(lines 1278-1313) decides whether to liquidate and `_execute_stop_loss`
(lines 1315-1356) submits the forced market sell and, on success, sets
the stop_loss_triggered flag through
`update_trade_stop_loss_triggered` (database.py lines 911-922). -/

/-- A document of the trades collection, restricted to the fields the
stop-loss and cancellation paths read.  Absent dictionary keys are
`none`; an absent stop_loss_triggered key is modelled as `false` (the
Mongo filter stop_loss_triggered ≠ true accepts absent and false
alike). -/
structure TradeDoc where
  docId : BsonId
  user_id : Nat
  status : String
  output_token : Option String := none
  output_amount : Option ℚ := none
  entry_price : Option ℚ := none
  stop_loss : Option ℚ := none
  stop_loss_triggered : Bool := false
  token_symbol : Option String := none
deriving DecidableEq

/-- database.py `get_completed_trades_with_stop_loss` (lines 898-909):
status completed, stop_loss present and positive, flag not yet set. -/
def stop_loss_eligible (t : TradeDoc) : Bool :=
  (t.status == "completed") && decide (0 < t.stop_loss.getD 0) &&
    !t.stop_loss_triggered

/-- trading_engine.py `_check_stop_loss` (lines 1278-1313): whether the
tick hands the trade to `_execute_stop_loss`.  `current_price` is the
price-oracle result for the output token, with 0 encoding an unavailable
price (`price_data.get` with default 0). -/
def check_stop_loss_triggers (trade : TradeDoc) (current_price : ℚ) : Bool :=
  match trade.output_token with
  | none => false
  | some _ =>
    if current_price = 0 then false
    else
      let entry_price := trade.entry_price.getD 0
      if entry_price = 0 then false
      else
        let price_change_pct := ((current_price - entry_price) / entry_price) * 100
        let stop_loss_pct := trade.stop_loss.getD 0
        if stop_loss_pct = 0 then false
        else decide (price_change_pct ≤ -stop_loss_pct)

/-- trading_engine.py `_execute_stop_loss` (lines 1315-1356) submits the
liquidating `execute_market_sell` for the full held amount iff that
amount is positive; this composition says whether a tick observing
`current_price` sends the forced sell to the venue. -/
def stop_loss_sell_submitted (trade : TradeDoc) (current_price : ℚ) : Bool :=
  check_stop_loss_triggers trade current_price &&
    decide (0 < trade.output_amount.getD 0)

/-- Claim C7: on a stop-loss check of a trade with entry price E > 0,
stop-loss percentage T > 0, positive held amount and available price
C > 0, the forced sell of the full held amount is submitted iff the
drawdown (E - C) / E * 100 is at least T; and when the entry price is
missing or zero, the stop-loss percentage is missing or zero, or the
price is unavailable, the check takes no action on that trade. -/
theorem C7_stop_loss_trigger_iff :
    (∀ (t : TradeDoc) (p E T A : ℚ),
        t.entry_price = some E → 0 < E →
        t.stop_loss = some T → 0 < T →
        t.output_amount = some A → 0 < A →
        t.output_token.isSome = true → 0 < p →
        (stop_loss_sell_submitted t p = true ↔ T ≤ (E - p) / E * 100)) ∧
    (∀ (t : TradeDoc) (p : ℚ),
        t.entry_price.getD 0 = 0 ∨ t.stop_loss.getD 0 = 0 ∨ p = 0 →
        check_stop_loss_triggers t p = false) := by
  constructor
  · intro t p E T A hE hEpos hT hTpos hA hApos htok hppos
    obtain ⟨tok, htok'⟩ := Option.isSome_iff_exists.mp htok
    have hp0 : ¬ p = 0 := ne_of_gt hppos
    have hE0 : ¬ E = 0 := ne_of_gt hEpos
    have hT0 : ¬ T = 0 := ne_of_gt hTpos
    have hkey : (p - E) / E * 100 = -((E - p) / E * 100) := by ring
    simp only [stop_loss_sell_submitted, check_stop_loss_triggers, htok',
      hE, hT, hA, Option.getD_some, if_neg hp0, if_neg hE0, if_neg hT0,
      Bool.and_eq_true, decide_eq_true_eq]
    constructor
    · rintro ⟨hle, -⟩
      rw [hkey] at hle
      linarith
    · intro hge
      refine ⟨?_, hApos⟩
      rw [hkey]
      linarith
  · intro t p h
    rcases h with h | h | h
    · cases htok : t.output_token with
      | none => simp [check_stop_loss_triggers, htok]
      | some tok =>
        simp only [check_stop_loss_triggers, htok, h]
        by_cases hp : p = 0 <;> simp [hp]
    · cases htok : t.output_token with
      | none => simp [check_stop_loss_triggers, htok]
      | some tok =>
        simp only [check_stop_loss_triggers, htok, h]
        by_cases hp : p = 0
        · simp [hp]
        · by_cases he : t.entry_price.getD 0 = 0 <;> simp [hp, he]
    · cases htok : t.output_token with
      | none => simp [check_stop_loss_triggers, htok]
      | some tok => simp [check_stop_loss_triggers, htok, h]

/-- One forced-sell submission at the venue boundary: `tradeId` is the
string id `str(trade._id)` under which `_execute_stop_loss` updates the
originating trade, `succeeded` the outcome of the forced
`execute_market_sell`. -/
structure StopLossSell where
  tradeId : BsonId
  succeeded : Bool
deriving DecidableEq

/-- database.py `update_trade_stop_loss_triggered` (lines 911-922): the
filter wraps the string id back into an ObjectId, so it reaches the
stored document.  `update_one` touches a single document; mapping over
all matches coincides with that under the unique-id hypothesis the
theorems carry. -/
def set_stop_loss_triggered (db : List TradeDoc) (trade_id : BsonId) :
    List TradeDoc :=
  db.map fun d =>
    if d.docId = objectIdOf trade_id then { d with stop_loss_triggered := true }
    else d

/-- External inputs of one `_monitor_stop_losses` tick: the price oracle
and the outcome of each forced `execute_market_sell`, indexed by the id
of the originating trade. -/
structure StopLossTickInput where
  prices : String → ℚ
  sell_ok : BsonId → Bool

/-- The forced sell one snapshot document yields under the tick inputs,
if any. -/
def tick_event_for (inp : StopLossTickInput) (t : TradeDoc) :
    Option StopLossSell :=
  if stop_loss_sell_submitted t (inp.prices (t.output_token.getD "")) then
    some { tradeId := strOf t.docId, succeeded := inp.sell_ok t.docId }
  else none

/-- The forced sells one tick submits: `_monitor_stop_losses`
(lines 1259-1276) iterates the `get_completed_trades_with_stop_loss`
snapshot, and every per-trade decision reads the snapshot document, not
the live collection. -/
def stop_loss_tick_events (inp : StopLossTickInput) (db : List TradeDoc) :
    List StopLossSell :=
  (db.filter stop_loss_eligible).filterMap (tick_event_for inp)

/-- One stop-loss tick: the submitted sells, and the collection after
each successful sell has set the triggered flag of its trade. -/
def stop_loss_tick (inp : StopLossTickInput) (db : List TradeDoc) :
    List TradeDoc × List StopLossSell :=
  let events := stop_loss_tick_events inp db
  (events.foldl
      (fun acc e => if e.succeeded then set_stop_loss_triggered acc e.tradeId
        else acc)
      db,
   events)

/-- A sequence of stop-loss monitoring ticks, accumulating every forced
sell submitted to the venue. -/
def run_stop_loss (db : List TradeDoc) :
    List StopLossTickInput → List TradeDoc × List StopLossSell
| [] => (db, [])
| inp :: rest =>
  let step := stop_loss_tick inp db
  let next := run_stop_loss step.1 rest
  (next.1, step.2 ++ next.2)

/-- The sells submitted for one originating trade id. -/
def sells_for (events : List StopLossSell) (tid : BsonId) : List StopLossSell :=
  events.filter fun e => decide (e.tradeId = tid)

/-- The successful sells for one originating trade id. -/
def succ_sells_for (events : List StopLossSell) (tid : BsonId) :
    List StopLossSell :=
  (sells_for events tid).filter fun e => e.succeeded

/-- Concrete completed trade with a stop loss, for the C6 run. -/
def c6_trade : TradeDoc :=
  { docId := .objectId 1, user_id := 1, status := "completed",
    output_token := some "TOK", output_amount := some 5,
    entry_price := some 10, stop_loss := some 20,
    token_symbol := some "TOK" }

/-- A tick observing price 7 (30 percent drawdown) whose forced sell
fails at the venue. -/
def c6_tick_fail : StopLossTickInput :=
  { prices := fun _ => 7, sell_ok := fun _ => false }

/-- A tick observing price 7 whose forced sell succeeds. -/
def c6_tick_ok : StopLossTickInput :=
  { prices := fun _ => 7, sell_ok := fun _ => true }

/-- Claim C6 as stated is false: the forced sell is not submitted at most
once per originating trade.  When the first submission fails at the
venue, the triggered flag is not set (it is set only on success), the
trade stays in the scan, and the next tick submits the forced sell
again: two submissions for the same trade. -/
theorem C6_counterexample :
    (sells_for (run_stop_loss [c6_trade] [c6_tick_fail, c6_tick_ok]).2
        (BsonId.strId 1)).length = 2 := by
  with_unfolding_all rfl

lemma tick_event_for_spec {inp : StopLossTickInput} {t : TradeDoc}
    {e : StopLossSell} (h : tick_event_for inp t = some e) :
    e.tradeId = strOf t.docId ∧ e.succeeded = inp.sell_ok t.docId := by
  unfold tick_event_for at h
  split at h
  · injection h with h2
    subst h2
    exact ⟨rfl, rfl⟩
  · cases h

lemma docId_eq_of_strOf_eq {a b : BsonId} (ha : isObjectId a = true)
    (hb : isObjectId b = true) (h : strOf a = strOf b) : a = b := by
  cases a <;> cases b <;> simp_all [isObjectId, strOf]

lemma eq_objectIdOf_of_strOf_eq {b tid : BsonId} (hb : isObjectId b = true)
    (h : strOf b = tid) : b = objectIdOf tid := by
  cases b with
  | objectId n =>
    subst h
    rfl
  | strId n => simp [isObjectId] at hb

lemma sells_for_append (l1 l2 : List StopLossSell) (tid : BsonId) :
    sells_for (l1 ++ l2) tid = sells_for l1 tid ++ sells_for l2 tid := by
  simp [sells_for, List.filter_append]

lemma succ_sells_for_append (l1 l2 : List StopLossSell) (tid : BsonId) :
    succ_sells_for (l1 ++ l2) tid =
      succ_sells_for l1 tid ++ succ_sells_for l2 tid := by
  simp [succ_sells_for, sells_for, List.filter_append]

lemma succ_sells_le (events : List StopLossSell) (tid : BsonId) :
    (succ_sells_for events tid).length ≤ (sells_for events tid).length :=
  List.length_filter_le _ _

lemma snapshot_sells_nil (inp : StopLossTickInput) (tid : BsonId) :
    ∀ s : List TradeDoc, (∀ t ∈ s, strOf t.docId ≠ tid) →
      sells_for (s.filterMap (tick_event_for inp)) tid = [] := by
  intro s
  induction s with
  | nil => intro _; rfl
  | cons t rest ih =>
    intro h
    have ht := h t (List.mem_cons_self ..)
    have hrest := fun x hx => h x (List.mem_cons_of_mem _ hx)
    rw [List.filterMap_cons]
    cases hev : tick_event_for inp t with
    | none => exact ih hrest
    | some e =>
      have hne : ¬(e.tradeId = tid) := by
        rw [(tick_event_for_spec hev).1]
        exact ht
      simp only [sells_for, List.filter_cons, decide_eq_true_eq, hne,
        if_false, decide_False]
      exact ih hrest

lemma snapshot_sells_le_one (inp : StopLossTickInput) (tid : BsonId) :
    ∀ s : List TradeDoc, (s.map TradeDoc.docId).Nodup →
      (∀ t ∈ s, isObjectId t.docId = true) →
      (sells_for (s.filterMap (tick_event_for inp)) tid).length ≤ 1 := by
  intro s
  induction s with
  | nil => intro _ _; simp [sells_for]
  | cons t rest ih =>
    intro hnd hobj
    have hnotin : t.docId ∉ rest.map TradeDoc.docId :=
      (List.nodup_cons.mp (by simpa using hnd)).1
    have hnd' : (rest.map TradeDoc.docId).Nodup :=
      (List.nodup_cons.mp (by simpa using hnd)).2
    have hobjt := hobj t (List.mem_cons_self ..)
    have hobj' := fun x hx => hobj x (List.mem_cons_of_mem _ hx)
    rw [List.filterMap_cons]
    cases hev : tick_event_for inp t with
    | none => exact ih hnd' hobj'
    | some e =>
      by_cases htid : e.tradeId = tid
      · have hnil : sells_for (rest.filterMap (tick_event_for inp)) tid = [] := by
          apply snapshot_sells_nil
          intro x hx hcon
          have hsx : strOf x.docId = strOf t.docId := by
            rw [hcon, ← htid, (tick_event_for_spec hev).1]
          have : x.docId = t.docId :=
            docId_eq_of_strOf_eq (hobj' x hx) hobjt hsx
          exact hnotin (this ▸ List.mem_map_of_mem _ hx)
        have hcons : sells_for (e :: rest.filterMap (tick_event_for inp)) tid =
            e :: sells_for (rest.filterMap (tick_event_for inp)) tid := by
          simp [sells_for, List.filter_cons, htid]
        rw [hcons, hnil]
        simp
      · simp only [sells_for, List.filter_cons, decide_eq_true_eq, htid,
          if_false, decide_False]
        exact ih hnd' hobj'

/-- Every document of the collection whose string id is `tid` (among the
ObjectId-keyed documents `insert_one` produces) already carries the
triggered flag. -/
def all_flagged_for (db : List TradeDoc) (tid : BsonId) : Prop :=
  ∀ d ∈ db, isObjectId d.docId = true → strOf d.docId = tid →
    d.stop_loss_triggered = true

lemma tick_sells_le_one (inp : StopLossTickInput) (tid : BsonId)
    (db : List TradeDoc) (hnd : (db.map TradeDoc.docId).Nodup)
    (hobj : ∀ d ∈ db, isObjectId d.docId = true) :
    (sells_for (stop_loss_tick_events inp db) tid).length ≤ 1 := by
  apply snapshot_sells_le_one
  · exact List.Nodup.sublist (List.Sublist.map _ (List.filter_sublist db)) hnd
  · exact fun t ht => hobj t (List.mem_of_mem_filter ht)

lemma tick_sells_nil_of_flagged (inp : StopLossTickInput) (tid : BsonId)
    (db : List TradeDoc) (hobj : ∀ d ∈ db, isObjectId d.docId = true)
    (hAF : all_flagged_for db tid) :
    sells_for (stop_loss_tick_events inp db) tid = [] := by
  apply snapshot_sells_nil
  intro t ht hcon
  have htdb := List.mem_of_mem_filter ht
  have helig := List.of_mem_filter ht
  have hflag := hAF t htdb (hobj t htdb) hcon
  simp [stop_loss_eligible, hflag] at helig

lemma set_stop_loss_triggered_map_docId (db : List TradeDoc) (tid2 : BsonId) :
    (set_stop_loss_triggered db tid2).map TradeDoc.docId =
      db.map TradeDoc.docId := by
  simp only [set_stop_loss_triggered, List.map_map]
  apply List.map_congr_left
  intro d _
  by_cases h : d.docId = objectIdOf tid2 <;> simp [h]

lemma fold_map_docId (events : List StopLossSell) :
    ∀ db : List TradeDoc,
      ((events.foldl
          (fun acc e => if e.succeeded then set_stop_loss_triggered acc e.tradeId
            else acc) db).map TradeDoc.docId) = db.map TradeDoc.docId := by
  induction events with
  | nil => intro db; rfl
  | cons e rest ih =>
    intro db
    rw [List.foldl_cons, ih]
    by_cases h : e.succeeded <;> simp [h, set_stop_loss_triggered_map_docId]

lemma shape_of_map_docId_eq {db1 db2 : List TradeDoc}
    (h : db2.map TradeDoc.docId = db1.map TradeDoc.docId)
    (hobj : ∀ d ∈ db1, isObjectId d.docId = true) :
    ∀ d ∈ db2, isObjectId d.docId = true := by
  intro d hd
  have hmem : d.docId ∈ db1.map TradeDoc.docId := by
    rw [← h]
    exact List.mem_map_of_mem _ hd
  obtain ⟨d1, hd1, he⟩ := List.mem_map.mp hmem
  rw [← he]
  exact hobj d1 hd1

lemma set_preserves_flag {db : List TradeDoc} {tid tid2 : BsonId}
    (h : all_flagged_for db tid) :
    all_flagged_for (set_stop_loss_triggered db tid2) tid := by
  intro d hd
  obtain ⟨d0, hd0, rfl⟩ := List.mem_map.mp hd
  by_cases hc : d0.docId = objectIdOf tid2
  · simp [hc]
  · simpa [hc] using h d0 hd0

lemma set_establishes_flag (db : List TradeDoc) (tid2 : BsonId) :
    all_flagged_for (set_stop_loss_triggered db tid2) tid2 := by
  intro d hd hsh hstr
  obtain ⟨d0, hd0, rfl⟩ := List.mem_map.mp hd
  by_cases hc : d0.docId = objectIdOf tid2
  · simp [hc]
  · exfalso
    apply hc
    apply eq_objectIdOf_of_strOf_eq
    · simpa [hc] using hsh
    · simpa [hc] using hstr

lemma fold_preserves_flag (events : List StopLossSell) :
    ∀ (db : List TradeDoc) (tid : BsonId), all_flagged_for db tid →
      all_flagged_for
        (events.foldl
          (fun acc e => if e.succeeded then set_stop_loss_triggered acc e.tradeId
            else acc) db) tid := by
  induction events with
  | nil => intro db tid h; exact h
  | cons e rest ih =>
    intro db tid h
    rw [List.foldl_cons]
    apply ih
    by_cases hs : e.succeeded
    · simpa [hs] using set_preserves_flag h
    · simpa [hs] using h

lemma fold_sets_flag (events : List StopLossSell) :
    ∀ (db : List TradeDoc) (e : StopLossSell), e ∈ events →
      e.succeeded = true →
      all_flagged_for
        (events.foldl
          (fun acc e => if e.succeeded then set_stop_loss_triggered acc e.tradeId
            else acc) db) e.tradeId := by
  induction events with
  | nil => intro _ e he; cases he
  | cons e0 rest ih =>
    intro db e he hs
    rcases List.mem_cons.mp he with rfl | hmem
    · rw [List.foldl_cons]
      apply fold_preserves_flag
      simpa [hs] using set_establishes_flag db e.tradeId
    · rw [List.foldl_cons]
      exact ih _ e hmem hs

lemma run_stop_loss_bound (tid : BsonId) :
    ∀ (ticks : List StopLossTickInput) (db : List TradeDoc),
      (db.map TradeDoc.docId).Nodup →
      (∀ d ∈ db, isObjectId d.docId = true) →
      (succ_sells_for (run_stop_loss db ticks).2 tid).length ≤ 1 ∧
      (all_flagged_for db tid →
        sells_for (run_stop_loss db ticks).2 tid = []) := by
  intro ticks
  induction ticks with
  | nil =>
    intro db _ _
    exact ⟨by simp [run_stop_loss, succ_sells_for, sells_for],
      fun _ => by simp [run_stop_loss, sells_for]⟩
  | cons inp rest ih =>
    intro db hnd hobj
    have htick2 : (stop_loss_tick inp db).2 = stop_loss_tick_events inp db :=
      rfl
    have htick1 : (stop_loss_tick inp db).1 =
        (stop_loss_tick_events inp db).foldl
          (fun acc e => if e.succeeded then set_stop_loss_triggered acc e.tradeId
            else acc) db := rfl
    have hmap : ((stop_loss_tick inp db).1.map TradeDoc.docId) =
        db.map TradeDoc.docId := by
      rw [htick1]
      exact fold_map_docId _ db
    have hnd2 : (((stop_loss_tick inp db).1).map TradeDoc.docId).Nodup := by
      rw [hmap]
      exact hnd
    have hobj2 := shape_of_map_docId_eq hmap hobj
    obtain ⟨ihb, ihf⟩ := ih (stop_loss_tick inp db).1 hnd2 hobj2
    have hrun : run_stop_loss db (inp :: rest) =
        ((run_stop_loss (stop_loss_tick inp db).1 rest).1,
         (stop_loss_tick inp db).2 ++
           (run_stop_loss (stop_loss_tick inp db).1 rest).2) := rfl
    constructor
    · rw [hrun]
      simp only [succ_sells_for_append, List.length_append]
      by_cases hz : (succ_sells_for (stop_loss_tick inp db).2 tid).length = 0
      · omega
      · have hne : succ_sells_for (stop_loss_tick inp db).2 tid ≠ [] := by
          intro hcon
          exact hz (by rw [hcon]; rfl)
        obtain ⟨e, he⟩ := List.exists_mem_of_ne_nil _ hne
        have he1 : e ∈ sells_for (stop_loss_tick inp db).2 tid :=
          List.mem_of_mem_filter he
        have he_s : e.succeeded = true := List.of_mem_filter he
        have he_ev : e ∈ (stop_loss_tick inp db).2 :=
          List.mem_of_mem_filter he1
        have he_tid : e.tradeId = tid := by
          have := List.of_mem_filter he1
          simpa using this
        have hAF2 : all_flagged_for (stop_loss_tick inp db).1 tid := by
          rw [← he_tid, htick1]
          apply fold_sets_flag
          · rw [← htick2]
            exact he_ev
          · exact he_s
        have hnil2 : sells_for (run_stop_loss (stop_loss_tick inp db).1 rest).2
            tid = [] := ihf hAF2
        have hsucc2 :
            (succ_sells_for (run_stop_loss (stop_loss_tick inp db).1 rest).2
              tid).length = 0 := by
          simp [succ_sells_for, hnil2]
        have hb1 : (succ_sells_for (stop_loss_tick inp db).2 tid).length ≤ 1 := by
          calc (succ_sells_for (stop_loss_tick inp db).2 tid).length
              ≤ (sells_for (stop_loss_tick inp db).2 tid).length :=
                succ_sells_le _ _
            _ ≤ 1 := by
                rw [htick2]
                exact tick_sells_le_one inp tid db hnd hobj
        omega
    · intro hAF
      rw [hrun]
      rw [sells_for_append]
      have h1 : sells_for (stop_loss_tick inp db).2 tid = [] := by
        rw [htick2]
        exact tick_sells_nil_of_flagged inp tid db hobj hAF
      have hAF2 : all_flagged_for (stop_loss_tick inp db).1 tid := by
        rw [htick1]
        exact fold_preserves_flag _ db tid hAF
      rw [h1, ihf hAF2]
      rfl

/-- Claim C6 amended: across any sequence of stop-loss monitoring ticks
over a collection of ObjectId-keyed trade documents with distinct ids,
at most one forced liquidating sell per originating trade ever succeeds:
a successful sell sets the triggered flag, which excludes the trade from
every later scan.  (A failed submission does not set the flag and is
retried on later ticks, which is what refutes the claim as stated.) -/
theorem C6_amended (db : List TradeDoc) (ticks : List StopLossTickInput)
    (tid : BsonId) (hnd : (db.map TradeDoc.docId).Nodup)
    (hobj : ∀ d ∈ db, isObjectId d.docId = true) :
    (succ_sells_for (run_stop_loss db ticks).2 tid).length ≤ 1 :=
  (run_stop_loss_bound tid ticks db hnd hobj).1

/-- Witness for C6: on the concrete two-tick run that submits the forced
sell twice, the number of successful sells is still at most one. -/
theorem C6_amended_witness :
    (succ_sells_for
        (run_stop_loss [c6_trade] [c6_tick_fail, c6_tick_ok]).2
        (BsonId.strId 1)).length ≤ 1 :=
  C6_amended [c6_trade] [c6_tick_fail, c6_tick_ok] (BsonId.strId 1)
    (by simp [c6_trade]) (by simp [c6_trade, isObjectId])

/-- Concrete trade for the C7 witness: entry 10, stop-loss 20 percent,
held amount 5. -/
def c7_trade : TradeDoc :=
  { docId := .objectId 1, user_id := 1, status := "completed",
    output_token := some "TOK", output_amount := some 5,
    entry_price := some 10, stop_loss := some 20,
    token_symbol := some "TOK" }

/-- Witness for C7: at observed price 7 the drawdown is 30 percent, at
least the 20 percent threshold, so the forced sell is submitted. -/
theorem C7_stop_loss_trigger_iff_witness :
    stop_loss_sell_submitted c7_trade 7 = true :=
  (C7_stop_loss_trigger_iff.1 c7_trade 7 10 20 5 rfl (by norm_num) rfl
      (by norm_num) rfl (by norm_num) rfl (by norm_num)).mpr (by norm_num)

/-! ## Limit-order monitoring (claims C1 and C5)

trading_engine.py `_monitor_limit_orders` (lines 338-356) fetches the
pending documents of the orders collection through
`get_all_pending_orders` (database.py lines 886-896, filter
status = pending only, no expiry condition) and runs
`_check_limit_order` (lines 358-433) on each.  The completed/failed
write goes through `update_order_status` (database.py lines 613-628),
whose filter uses the raw string id, never matching the ObjectId ids
`insert_one` stored. -/

/-- A document of the orders collection, restricted to the fields the
limit-order path reads.  `price` and `expires_at` are optional keys of
the loosely typed record. -/
structure OrderDoc where
  docId : BsonId
  user_id : Nat
  trade_type : Option String := none
  price : Option ℚ := none
  amount_sol : Option ℚ := none
  amount_tokens : Option ℚ := none
  input_token : Option String := none
  output_token : Option String := none
  status : String
  expires_at : Option ℚ := none
deriving DecidableEq

/-- What `_check_limit_order` decides to do with one fetched document:
nothing, an `execute_market_buy`, or an `execute_market_sell`.  A missing
`output_token`, `amount_sol` or (for sells) `amount_tokens`/`input_token`
key raises KeyError, caught by the enclosing try/except, hence skip. -/
inductive LimitDecision
| skip
| exec_buy (amount : ℚ)
| exec_sell (amount : ℚ)
deriving DecidableEq

/-- trading_engine.py `_check_limit_order` decision logic (lines
358-395): fetch the current price of the output token (0 encodes an
unavailable price and skips), read trade_type with default limit_buy and
price with default 0, then trigger a buy when current ≤ limit and a sell
when current ≥ limit, both only for a positive limit price.  Expiry is
never consulted. -/
def check_limit_order_decision (prices : String → ℚ) (order : OrderDoc) :
    LimitDecision :=
  match order.output_token with
  | none => .skip
  | some tok =>
    let current_price := prices tok
    if current_price = 0 then .skip
    else
      let order_type := order.trade_type.getD "limit_buy"
      let limit_price := order.price.getD 0
      if order_type = "limit_buy" ∧ 0 < limit_price ∧
          current_price ≤ limit_price then
        match order.amount_sol with
        | none => .skip
        | some a => .exec_buy a
      else if order_type = "limit_sell" ∧ 0 < limit_price ∧
          limit_price ≤ current_price then
        match order.amount_tokens, order.input_token with
        | some a, some _ => .exec_sell a
        | _, _ => .skip
      else .skip

/-- trading_engine.py `execute_market_buy` (lines 761-843) sends the swap
to the venue iff the amount passes the global bounds and the per-user
maximum from the settings store (`user_max` oracle); a rejected amount
returns failure without any venue call. -/
def execute_market_buy_submits (user_max : Nat → ℚ) (uid : Nat)
    (amount_sol : ℚ) : Bool :=
  decide (MIN_TRADE_AMOUNT ≤ amount_sol) &&
    decide (amount_sol ≤ MAX_TRADE_AMOUNT) &&
    decide (amount_sol ≤ user_max uid)

/-- database.py `update_order_status` (lines 613-628): the filter is the
raw string id, so it updates exactly the documents whose stored id equals
that string — never an ObjectId-keyed document. -/
def update_order_status (db : List OrderDoc) (order_id : BsonId)
    (status : String) : List OrderDoc :=
  db.map fun d => if d.docId = order_id then { d with status := status } else d

/-- One `execute_swap` invocation at the venue, attributed to the order
being processed (`orderId` is the string id `str(order._id)`). -/
structure SwapCall where
  orderId : BsonId
  uid : Nat
  amount : ℚ
deriving DecidableEq

/-- External inputs of one `_monitor_limit_orders` tick: the price
oracle, the per-user maximum from the settings store, and the venue
outcome of each swap, indexed by the id of the order being processed. -/
structure LimitTickInput where
  prices : String → ℚ
  user_max : Nat → ℚ
  swap_ok : BsonId → Bool

/-- Processing of one fetched document by `_check_limit_order` (lines
358-433): decide, call `execute_market_buy`/`execute_market_sell`
(`execute_market_sell`, lines 845-910, has no amount validation and
always sends the swap), then write completed or failed through
`update_order_status`. -/
def process_limit_order (inp : LimitTickInput)
    (st : List OrderDoc × List SwapCall) (order : OrderDoc) :
    List OrderDoc × List SwapCall :=
  let order_id := strOf order.docId
  match check_limit_order_decision inp.prices order with
  | .skip => st
  | .exec_buy a =>
    if execute_market_buy_submits inp.user_max order.user_id a then
      (update_order_status st.1 order_id
          (if inp.swap_ok order.docId then "completed" else "failed"),
       st.2 ++ [{ orderId := order_id, uid := order.user_id, amount := a }])
    else
      (update_order_status st.1 order_id "failed", st.2)
  | .exec_sell a =>
    (update_order_status st.1 order_id
        (if inp.swap_ok order.docId then "completed" else "failed"),
     st.2 ++ [{ orderId := order_id, uid := order.user_id, amount := a }])

/-- One `_monitor_limit_orders` tick (lines 338-356): fetch the pending
snapshot, then process each snapshot document; every per-order decision
reads the snapshot document, and the status writes go to the live
collection. -/
def limit_tick (inp : LimitTickInput) (db : List OrderDoc) :
    List OrderDoc × List SwapCall :=
  (db.filter fun d => d.status == "pending").foldl
    (process_limit_order inp) (db, [])

/-- A sequence of limit-order monitoring ticks, accumulating every swap
sent to the venue. -/
def run_limit (db : List OrderDoc) :
    List LimitTickInput → List OrderDoc × List SwapCall
| [] => (db, [])
| inp :: rest =>
  let step := limit_tick inp db
  let next := run_limit step.1 rest
  (next.1, step.2 ++ next.2)

/-- The swaps attributed to one order id. -/
def swaps_for (calls : List SwapCall) (oid : BsonId) : List SwapCall :=
  calls.filter fun c => decide (c.orderId = oid)

/-- The method names defined in the TradingEngine class body
(trading_engine.py).  The expiry branch of `_process_orders` (line 243)
calls `self._cancel_order`, which is not among them, so the expiry sweep
raises AttributeError — caught and logged per order (lines 252-253) —
and the expired order keeps its pending status. -/
def trading_engine_methods : List String :=
  ["__init__", "start_monitoring", "stop_monitoring", "_load_active_orders",
   "_load_copy_trading_subscriptions", "create_trade_order",
   "_validate_order", "_process_orders", "_execute_market_order",
   "_monitor_limit_orders", "_check_limit_order", "_send_limit_order_alert",
   "_check_snipe_order", "_monitor_copy_trading", "_execute_copy_trades",
   "_send_copy_trade_alert", "subscribe_copy_trading",
   "unsubscribe_copy_trading", "get_copy_trading_subscriptions",
   "update_copy_trading_settings", "get_user_orders", "cancel_user_order",
   "execute_market_buy", "execute_market_sell", "create_limit_order",
   "get_user_trade_history", "get_user_portfolio", "get_trading_statistics",
   "get_market_analysis", "create_snipe_order", "execute_snipe_trade",
   "_send_snipe_alert", "get_user_snipe_orders", "cancel_snipe_order",
   "_get_token_price_at_time", "_monitor_stop_losses", "_check_stop_loss",
   "_execute_stop_loss", "_send_stop_loss_alert"]

/-- A pending limit buy at trigger price 10 for 1 SOL, stored with an
ObjectId id as `create_limit_order` stores it. -/
def c1_order : OrderDoc :=
  { docId := .objectId 1, user_id := 1, trade_type := some "limit_buy",
    price := some 10, amount_sol := some 1, output_token := some "TOK",
    status := "pending" }

/-- A tick observing price 9.5 for every token, with default per-user
maximum and a venue that reports success. -/
def c1_tick : LimitTickInput :=
  { prices := fun _ => 19/2, user_max := fun _ => MAX_TRADE_AMOUNT,
    swap_ok := fun _ => true }

/-- Claim C1 is violated by the code: two consecutive monitoring ticks
both send the venue swap for the same limit order.  The first tick
triggers at price 9.5 and sends the swap; the completed-status write of
`update_order_status` filters on the string id and matches no stored
ObjectId-keyed document, so the order is still pending and the second
tick sends the swap again.  There is no Pending-to-Executing claim
anywhere on this path. -/
theorem C1_swap_sent_twice_for_one_order :
    (swaps_for (run_limit [c1_order] [c1_tick, c1_tick]).2
        (BsonId.strId 1)).length = 2 ∧
    (run_limit [c1_order] [c1_tick, c1_tick]).1 = [c1_order] := by
  constructor
  · with_unfolding_all rfl
  · with_unfolding_all rfl

/-- The same pending limit buy, but whose expiry timestamp (100) lies far
in the past of any present observation time. -/
def c5_order : OrderDoc :=
  { docId := .objectId 2, user_id := 1, trade_type := some "limit_buy",
    price := some 10, amount_sol := some 1, output_token := some "TOK",
    status := "pending", expires_at := some 100 }

/-- Claim C5 is violated by the code: a pending limit buy whose expiry
timestamp has long passed is still executed as soon as a tick observes a
qualifying price, because `_check_limit_order` and
`get_all_pending_orders` never consult expires_at; and the expiry sweep
of `_process_orders` cannot move anything to an expired state, since the
`_cancel_order` method it calls does not exist on the class. -/
theorem C5_expired_order_still_executes :
    (swaps_for (run_limit [c5_order] [c1_tick]).2
        (BsonId.strId 2)).length = 1 ∧
    c5_order.expires_at = some 100 ∧
    ("_cancel_order" ∈ trading_engine_methods) = False := by
  refine ⟨?_, rfl, ?_⟩
  · with_unfolding_all rfl
  · simp [trading_engine_methods]

/-! ## Order cancellation (claim C4)

trading_engine.py `cancel_user_order` (lines 735-758) looks the order up
with `find_one` on the raw string order id and the owner, then writes
cancelled through `update_trade_status` (database.py lines 367-389),
which wraps the id back into an ObjectId.  The engine hands its callers
string ids: `create_trade_order` (line 171) returns `str` of the
inserted ObjectId. -/

/-- database.py `update_trade_status` (lines 367-389): the filter wraps
`ObjectId(trade_id)`, so it reaches the ObjectId-keyed documents.
`update_one` touches a single document; mapping over all matches
coincides with that when ids are unique. -/
def update_trade_status (db : List TradeDoc) (trade_id : BsonId)
    (status : String) : List TradeDoc :=
  db.map fun d =>
    if d.docId = objectIdOf trade_id then { d with status := status } else d

/-- Outcome of `cancel_user_order`. -/
inductive CancelOutcome
| order_not_found   -- "Order not found"
| cancelled         -- "Order cancelled successfully"
deriving DecidableEq

/-- trading_engine.py `cancel_user_order` (lines 735-758): `find_one`
with the raw string id and the owner, then unconditional cancellation
(no status check) and removal from the in-memory active_orders map. -/
def cancel_user_order (db : List TradeDoc) (active : List BsonId)
    (uid : Nat) (order_id : BsonId) :
    (List TradeDoc × List BsonId) × CancelOutcome :=
  match db.find? (fun d => decide (d.docId = order_id) &&
      decide (d.user_id = uid)) with
  | none => ((db, active), .order_not_found)
  | some _ =>
    ((update_trade_status db order_id "cancelled",
      active.filter fun a => !decide (a = order_id)),
     .cancelled)

/-- A pending trade stored with ObjectId 7, owned by user 1, as the
intake path stores it. -/
def c4_pending_trade : TradeDoc :=
  { docId := .objectId 7, user_id := 1, status := "pending" }

/-- The same trade while it is executing. -/
def c4_executing_trade : TradeDoc :=
  { docId := .objectId 7, user_id := 1, status := "executing" }

/-- Claim C4 is violated by the code: cancelling a pending order does not
succeed.  With the engine-issued string id, `find_one` compares the
string against the stored ObjectId and never matches, so
`cancel_user_order` answers "Order not found" for every stored order —
pending or executing alike — and changes nothing. -/
theorem C4_cancel_pending_fails :
    cancel_user_order [c4_pending_trade] [BsonId.strId 7] 1
        (BsonId.strId 7) =
      (([c4_pending_trade], [BsonId.strId 7]), .order_not_found) ∧
    cancel_user_order [c4_executing_trade] [BsonId.strId 7] 1
        (BsonId.strId 7) =
      (([c4_executing_trade], [BsonId.strId 7]), .order_not_found) := by
  constructor
  · with_unfolding_all rfl
  · with_unfolding_all rfl

/-! ## Copy-trade relay (claims C3 and C9)

trading_engine.py `_monitor_copy_trading` (lines 472-524) classifies the
recent transactions of a monitored wallet and hands every significant
one to `_execute_copy_trades` (lines 526-623), which fans out to the
active subscribers of that wallet (the `get_copy_trading_users` result,
database.py lines 770-780).  Transactions are environment observations:
the model takes the per-tick transaction list as an input.  No state
about already-relayed transactions is kept anywhere on this path. -/

/-- An observed source-wallet transaction as `_execute_copy_trades`
consumes it: absent dictionary keys are `none`, and the numeric `get`
defaults are 0. -/
structure TxRecord where
  signature : String
  block_time : Option ℚ := none
  tx_type : Option String := none
  amount : ℚ := 0
  amount_usd : ℚ := 0
  input_token : Option String := none
  output_token : Option String := none
deriving DecidableEq

/-- The copy_settings dictionary stored on a subscription document, as
`_execute_copy_trades` reads it (lines 554-571): enabled defaults to
false, copy_percentage to 100, max_copy_amount to 1.0; the stored
min_trade_amount key is never read on this path. -/
structure StoredCopySettings where
  enabled : Option Bool := none
  copy_percentage : Option ℚ := none
  max_copy_amount : Option ℚ := none
  min_trade_amount : Option ℚ := none
deriving DecidableEq

/-- One active subscriber of the monitored wallet. -/
structure CopyUserDoc where
  user_id : Nat
  copy_settings : StoredCopySettings := {}
deriving DecidableEq

/-- The SOL mint address used to orient swap-type copies (line 588). -/
def SOL_MINT : String := "So11111111111111111111111111111111111111112"

/-- The `_monitor_copy_trading` classification (lines 496-513): receive above
0.1 is a buy, send above 0.1 a sell, anything above 100 USD a swap;
otherwise the transaction is not significant. -/
def detect_trade_type (tx : TxRecord) : Option String :=
  let tx_type := tx.tx_type.getD "unknown"
  if tx_type = "receive" ∧ 1/10 < tx.amount then some "buy"
  else if tx_type = "send" ∧ 1/10 < tx.amount then some "sell"
  else if 100 < tx.amount_usd then some "swap"
  else none

/-- The `_monitor_copy_trading` recency test (lines 490-494): skip a
transaction whose block time lies more than five minutes (300 s) in the
past; a transaction without a block time is not skipped. -/
def is_recent (now : ℚ) (tx : TxRecord) : Bool :=
  match tx.block_time with
  | none => true
  | some t => decide (now - t ≤ 300)

/-- The child-order sizing of `_execute_copy_trades` (lines 560-569):
when the observed transaction carries a positive USD amount the scaling
runs on the USD side with the cap converted at a fixed 100 USD/SOL,
otherwise the scaled source amount is capped at max_copy_amount. -/
def copy_trade_amount (s : StoredCopySettings) (tx : TxRecord) : ℚ :=
  let copy_percentage := s.copy_percentage.getD 100 / 100
  let max_copy_amount := s.max_copy_amount.getD 1
  if 0 < tx.amount_usd then
    min (tx.amount_usd * copy_percentage) (max_copy_amount * 100) / 100
  else
    min (tx.amount * copy_percentage) max_copy_amount

/-- Modelled from the spec wording, for comparison (claim C9): the child
amount is the observed source amount scaled by the copy-percentage and
capped at max-copy-amount. -/
def spec_copy_child_amount (s : StoredCopySettings) (tx : TxRecord) : ℚ :=
  min (tx.amount * (s.copy_percentage.getD 100 / 100))
    (s.max_copy_amount.getD 1)

/-- A mirrored child order submitted for one subscriber. -/
structure ChildOrder where
  subscriber : Nat
  source_signature : String
  direction : String
  token : String
  amount : ℚ
deriving DecidableEq

/-- The per-subscriber body of the `_execute_copy_trades` loop (lines
552-597): skip disabled subscribers, compute the scaled amount, drop it
below the fixed 0.01 threshold, then mirror the direction (a swap turns
into a buy when the source input token is SOL, else a sell). -/
def copy_trade_for_user (tx : TxRecord)
    (tx_type input_token output_token : String) (user_data : CopyUserDoc) :
    Option ChildOrder :=
  let s := user_data.copy_settings
  if s.enabled.getD false = false then none
  else
    let copy_amount := copy_trade_amount s tx
    if copy_amount < 1/100 then none
    else if tx_type = "buy" then
      some { subscriber := user_data.user_id, source_signature := tx.signature,
             direction := "buy", token := output_token, amount := copy_amount }
    else if tx_type = "sell" then
      some { subscriber := user_data.user_id, source_signature := tx.signature,
             direction := "sell", token := input_token, amount := copy_amount }
    else if tx_type = "swap" then
      if input_token = SOL_MINT then
        some { subscriber := user_data.user_id,
               source_signature := tx.signature, direction := "buy",
               token := output_token, amount := copy_amount }
      else
        some { subscriber := user_data.user_id,
               source_signature := tx.signature, direction := "sell",
               token := input_token, amount := copy_amount }
    else none

/-- trading_engine.py `_execute_copy_trades` (lines 526-623): re-check
significance (below 0.1 SOL and below 100 USD is skipped), require both
token fields, then fan out to every subscriber.  `detected` is the
detected_trade_type value the monitor stored on the transaction. -/
def execute_copy_trades (copy_users : List CopyUserDoc) (tx : TxRecord)
    (detected : Option String) : List ChildOrder :=
  let tx_type := detected.getD (tx.tx_type.getD "unknown")
  if tx.amount < 1/10 ∧ tx.amount_usd < 100 then []
  else
    match tx.input_token, tx.output_token with
    | some input_token, some output_token =>
      copy_users.filterMap (copy_trade_for_user tx tx_type input_token output_token)
    | _, _ => []

/-- One `_monitor_copy_trading` tick over one monitored wallet: classify
each recent transaction of the wallet and fan the significant ones out
to the active subscribers. -/
def copy_tick (now : ℚ) (txs : List TxRecord) (users : List CopyUserDoc) :
    List ChildOrder :=
  txs.flatMap fun tx =>
    if is_recent now tx then
      match detect_trade_type tx with
      | some d => execute_copy_trades users tx (some d)
      | none => []
    else []

/-- A sequence of copy-trading monitor ticks with a fixed subscriber set,
each observing the wallet transactions returned at that tick. -/
def run_copy (users : List CopyUserDoc) :
    List (ℚ × List TxRecord) → List ChildOrder
| [] => []
| (now, txs) :: rest => copy_tick now txs users ++ run_copy users rest

/-- The child orders relayed for one source transaction reference to one
subscriber. -/
def relays_for (events : List ChildOrder) (sig : String) (uid : Nat) :
    List ChildOrder :=
  events.filter fun e =>
    decide (e.source_signature = sig) && decide (e.subscriber = uid)

/-- An enabled subscriber with default settings. -/
def c3_user : CopyUserDoc :=
  { user_id := 7, copy_settings := { enabled := some true } }

/-- A significant buy transaction of the source wallet, observed at
block time 1000. -/
def c3_tx : TxRecord :=
  { signature := "sig1", block_time := some 1000, tx_type := some "receive",
    amount := 1, input_token := some SOL_MINT, output_token := some "TOK" }

/-- Claim C3 is violated by the code: nothing deduplicates observed
transactions by source reference, so two monitor ticks that both observe
the same recent significant transaction both relay it to the same
subscriber. -/
theorem C3_counterexample :
    (relays_for (run_copy [c3_user] [(1100, [c3_tx]), (1200, [c3_tx])])
        "sig1" 7).length = 2 := by
  with_unfolding_all rfl

lemma copy_trade_for_user_spec {tx : TxRecord} {ty i o : String}
    {u : CopyUserDoc} {e : ChildOrder}
    (h : copy_trade_for_user tx ty i o u = some e) :
    e.subscriber = u.user_id ∧ e.source_signature = tx.signature := by
  unfold copy_trade_for_user at h
  split_ifs at h <;> simp at h <;> obtain ⟨-, -, rfl⟩ := h <;>
    exact ⟨rfl, rfl⟩

lemma users_relays_nil_of_absent (tx : TxRecord) (ty i o : String)
    (sig : String) (uid : Nat) :
    ∀ users : List CopyUserDoc, (∀ u ∈ users, u.user_id ≠ uid) →
      relays_for (users.filterMap (copy_trade_for_user tx ty i o)) sig uid
        = [] := by
  intro users
  induction users with
  | nil => intro _; rfl
  | cons u rest ih =>
    intro h
    have hu := h u (List.mem_cons_self ..)
    have hrest := fun x hx => h x (List.mem_cons_of_mem _ hx)
    rw [List.filterMap_cons]
    cases hev : copy_trade_for_user tx ty i o u with
    | none => exact ih hrest
    | some e =>
      have hne : ¬(e.subscriber = uid) := by
        rw [(copy_trade_for_user_spec hev).1]
        exact hu
      simp only [relays_for, List.filter_cons, Bool.and_eq_true,
        decide_eq_true_eq]
      rw [if_neg (by simp [hne])]
      exact ih hrest

lemma users_relays_le_one (tx : TxRecord) (ty i o : String) (sig : String)
    (uid : Nat) :
    ∀ users : List CopyUserDoc, (users.map CopyUserDoc.user_id).Nodup →
      (relays_for (users.filterMap (copy_trade_for_user tx ty i o)) sig
          uid).length ≤ 1 := by
  intro users
  induction users with
  | nil => intro _; simp [relays_for]
  | cons u rest ih =>
    intro hnd
    have hnotin : u.user_id ∉ rest.map CopyUserDoc.user_id :=
      (List.nodup_cons.mp (by simpa using hnd)).1
    have hnd' : (rest.map CopyUserDoc.user_id).Nodup :=
      (List.nodup_cons.mp (by simpa using hnd)).2
    rw [List.filterMap_cons]
    cases hev : copy_trade_for_user tx ty i o u with
    | none => exact ih hnd'
    | some e =>
      by_cases hmatch : e.source_signature = sig ∧ e.subscriber = uid
      · have hnil : relays_for (rest.filterMap (copy_trade_for_user tx ty i o))
            sig uid = [] := by
          apply users_relays_nil_of_absent
          intro x hx hcon
          apply hnotin
          have huu : u.user_id = x.user_id := by
            rw [← (copy_trade_for_user_spec hev).1, hmatch.2, hcon]
          rw [huu]
          exact List.mem_map_of_mem _ hx
        have hcons : relays_for
              (e :: rest.filterMap (copy_trade_for_user tx ty i o)) sig uid =
            e :: relays_for (rest.filterMap (copy_trade_for_user tx ty i o))
              sig uid := by
          simp [relays_for, List.filter_cons, hmatch.1, hmatch.2]
        rw [hcons, hnil]
        simp
      · have hcons : relays_for
              (e :: rest.filterMap (copy_trade_for_user tx ty i o)) sig uid =
            relays_for (rest.filterMap (copy_trade_for_user tx ty i o))
              sig uid := by
          simp only [relays_for, List.filter_cons, Bool.and_eq_true,
            decide_eq_true_eq]
          rw [if_neg hmatch]
        rw [hcons]
        exact ih hnd'

lemma execute_copy_trades_sig {users : List CopyUserDoc} {tx : TxRecord}
    {d : Option String} {e : ChildOrder}
    (h : e ∈ execute_copy_trades users tx d) :
    e.source_signature = tx.signature := by
  unfold execute_copy_trades at h
  by_cases hg : tx.amount < 1/10 ∧ tx.amount_usd < 100
  · rw [if_pos hg] at h
    cases h
  · rw [if_neg hg] at h
    cases hti : tx.input_token with
    | none => rw [hti] at h; simp at h
    | some i =>
      cases hto : tx.output_token with
      | none => rw [hti, hto] at h; simp at h
      | some o =>
        rw [hti, hto] at h
        obtain ⟨u, _, hsome⟩ := List.mem_filterMap.mp h
        exact (copy_trade_for_user_spec hsome).2

lemma execute_copy_trades_relays_le_one (users : List CopyUserDoc)
    (tx : TxRecord) (d : Option String) (sig : String) (uid : Nat)
    (hnd : (users.map CopyUserDoc.user_id).Nodup) :
    (relays_for (execute_copy_trades users tx d) sig uid).length ≤ 1 := by
  unfold execute_copy_trades
  by_cases hg : tx.amount < 1/10 ∧ tx.amount_usd < 100
  · rw [if_pos hg]
    simp [relays_for]
  · rw [if_neg hg]
    cases hti : tx.input_token with
    | none => simp [relays_for]
    | some i =>
      cases hto : tx.output_token with
      | none => simp [relays_for]
      | some o => exact users_relays_le_one tx _ i o sig uid users hnd

lemma relays_for_append (l1 l2 : List ChildOrder) (sig : String) (uid : Nat) :
    relays_for (l1 ++ l2) sig uid =
      relays_for l1 sig uid ++ relays_for l2 sig uid := by
  simp [relays_for, List.filter_append]

/-- The per-transaction contribution of one tick. -/
def tick_tx_events (now : ℚ) (users : List CopyUserDoc) (tx : TxRecord) :
    List ChildOrder :=
  if is_recent now tx then
    match detect_trade_type tx with
    | some d => execute_copy_trades users tx (some d)
    | none => []
  else []

lemma copy_tick_eq_flatMap (now : ℚ) (txs : List TxRecord)
    (users : List CopyUserDoc) :
    copy_tick now txs users = txs.flatMap (tick_tx_events now users) := rfl

lemma tick_tx_events_sig {now : ℚ} {users : List CopyUserDoc}
    {tx : TxRecord} {e : ChildOrder} (h : e ∈ tick_tx_events now users tx) :
    e.source_signature = tx.signature := by
  unfold tick_tx_events at h
  by_cases hr : is_recent now tx
  · rw [if_pos hr] at h
    cases hd : detect_trade_type tx with
    | none => rw [hd] at h; cases h
    | some d =>
      rw [hd] at h
      exact execute_copy_trades_sig h
  · rw [if_neg hr] at h
    cases h

lemma tick_tx_relays_nil {now : ℚ} {users : List CopyUserDoc}
    {tx : TxRecord} {sig : String} {uid : Nat}
    (h : tx.signature ≠ sig) :
    relays_for (tick_tx_events now users tx) sig uid = [] := by
  rw [List.eq_nil_iff_forall_not_mem]
  intro e he
  obtain ⟨hem, hpred⟩ := List.mem_filter.mp he
  have := tick_tx_events_sig hem
  simp only [Bool.and_eq_true, decide_eq_true_eq] at hpred
  exact h (this ▸ hpred.1)

lemma tick_tx_relays_le_one (now : ℚ) (users : List CopyUserDoc)
    (tx : TxRecord) (sig : String) (uid : Nat)
    (hnd : (users.map CopyUserDoc.user_id).Nodup) :
    (relays_for (tick_tx_events now users tx) sig uid).length ≤ 1 := by
  unfold tick_tx_events
  by_cases hr : is_recent now tx
  · rw [if_pos hr]
    cases hd : detect_trade_type tx with
    | none => simp [relays_for]
    | some d => exact execute_copy_trades_relays_le_one users tx (some d) sig uid hnd
  · rw [if_neg hr]
    simp [relays_for]

lemma txs_relays_nil_of_absent (now : ℚ) (users : List CopyUserDoc)
    (sig : String) (uid : Nat) :
    ∀ txs : List TxRecord, (∀ t ∈ txs, t.signature ≠ sig) →
      relays_for (copy_tick now txs users) sig uid = [] := by
  intro txs
  induction txs with
  | nil => intro _; rfl
  | cons t rest ih =>
    intro h
    rw [copy_tick_eq_flatMap, List.flatMap_cons, relays_for_append]
    rw [tick_tx_relays_nil (h t (List.mem_cons_self ..))]
    rw [← copy_tick_eq_flatMap]
    rw [ih (fun x hx => h x (List.mem_cons_of_mem _ hx))]
    rfl

/-- Claim C3 amended: within one monitoring tick over a list of observed
transactions with distinct references and a subscriber list with
distinct user ids, at most one child order is submitted per source
transaction reference and subscriber, and a transaction whose block time
lies more than five minutes in the past is never relayed.  Across ticks
nothing is deduplicated: every tick that observes the transaction as
recent and significant relays it again (see the counterexample). -/
theorem C3_amended :
    (∀ (now : ℚ) (txs : List TxRecord) (users : List CopyUserDoc)
        (sig : String) (uid : Nat),
        (txs.map TxRecord.signature).Nodup →
        (users.map CopyUserDoc.user_id).Nodup →
        (relays_for (copy_tick now txs users) sig uid).length ≤ 1) ∧
    (∀ (now : ℚ) (tx : TxRecord) (users : List CopyUserDoc) (t : ℚ),
        tx.block_time = some t → 300 < now - t →
        copy_tick now [tx] users = []) := by
  constructor
  · intro now txs users sig uid hndt hndu
    induction txs with
    | nil => simp [copy_tick, relays_for]
    | cons t rest ih =>
      have hnotin : t.signature ∉ rest.map TxRecord.signature :=
        (List.nodup_cons.mp (by simpa using hndt)).1
      have hnd' : (rest.map TxRecord.signature).Nodup :=
        (List.nodup_cons.mp (by simpa using hndt)).2
      rw [copy_tick_eq_flatMap, List.flatMap_cons, relays_for_append,
        ← copy_tick_eq_flatMap]
      rw [List.length_append]
      by_cases hts : t.signature = sig
      · have hnil : relays_for (copy_tick now rest users) sig uid = [] := by
          apply txs_relays_nil_of_absent
          intro x hx hcon
          apply hnotin
          have hts2 : t.signature = x.signature := by rw [hts, hcon]
          rw [hts2]
          exact List.mem_map_of_mem _ hx
        rw [hnil]
        simpa using tick_tx_relays_le_one now users t sig uid hndu
      · rw [tick_tx_relays_nil hts]
        simpa using ih hnd'
  · intro now tx users t hbt hst
    have : is_recent now tx = false := by
      simp [is_recent, hbt]
      linarith
    simp [copy_tick, tick_tx_events, this]

/-- Witness for C3 amended: one tick over the concrete transaction and
subscriber relays exactly once (at most one), and the same transaction
observed 400 seconds after its block time is not relayed. -/
theorem C3_amended_witness :
    (relays_for (copy_tick 1100 [c3_tx] [c3_user]) "sig1" 7).length ≤ 1 ∧
    copy_tick 1400 [c3_tx] [c3_user] = [] :=
  ⟨C3_amended.1 1100 [c3_tx] [c3_user] "sig1" 7 (by simp) (by simp),
   C3_amended.2 1400 c3_tx [c3_user] 1000 rfl (by norm_num)⟩

/-- Subscriber settings for the C9 counterexample: copy-percentage 50,
max-copy-amount 1.0, and a configured minimum trade size of 0.5. -/
def c9_settings : StoredCopySettings :=
  { enabled := some true, copy_percentage := some 50,
    max_copy_amount := some 1, min_trade_amount := some (1/2) }

/-- The subscriber carrying `c9_settings`. -/
def c9_user : CopyUserDoc := { user_id := 7, copy_settings := c9_settings }

/-- A source buy of 1 SOL that also carries a 150 USD amount. -/
def c9_usd_tx : TxRecord :=
  { signature := "sigU", tx_type := some "receive", amount := 1,
    amount_usd := 150, input_token := some SOL_MINT,
    output_token := some "TOK" }

/-- A source buy of 0.2 SOL with no USD amount. -/
def c9_small_tx : TxRecord :=
  { signature := "sigS", tx_type := some "receive", amount := 1/5,
    amount_usd := 0, input_token := some SOL_MINT,
    output_token := some "TOK" }

/-- Claim C9 as stated is false on two counts.  When the observed
transaction carries a positive USD amount, the child amount is computed
on the USD side (min(150 * 50 percent, 1.0 * 100) / 100 = 0.75) and
differs from the claimed scaled-and-capped source amount
(min(1 * 50 percent, 1.0) = 0.5).  And the drop threshold is the fixed
0.01, not the subscriber minimum: a scaled child of 0.1 SOL is submitted
although the subscriber configured a 0.5 minimum. -/
theorem C9_counterexample :
    copy_trade_amount c9_settings c9_usd_tx = 3/4 ∧
    spec_copy_child_amount c9_settings c9_usd_tx = 1/2 ∧
    (3/4 : ℚ) ≠ 1/2 ∧
    execute_copy_trades [c9_user] c9_small_tx (some "buy") =
      [{ subscriber := 7, source_signature := "sigS", direction := "buy",
         token := "TOK", amount := 1/10 }] ∧
    c9_settings.min_trade_amount = some (1/2) ∧
    (1/10 : ℚ) < 1/2 := by
  refine ⟨?_, ?_, by norm_num, ?_, rfl, by norm_num⟩
  · with_unfolding_all rfl
  · with_unfolding_all rfl
  · with_unfolding_all rfl

/-- Claim C9 amended: only when the observed transaction has no positive
USD amount does the child amount equal the source amount scaled by the
copy-percentage and capped at max-copy-amount (with a positive USD
amount the sizing runs on the USD side at a fixed 100 USD/SOL); the
child is dropped exactly when the computed amount falls below the fixed
0.01 threshold — the configured minimum trade size of the subscriber is never
consulted; and the scenario with copy-percentage 50, max-copy-amount 0.3
and a source amount of 1.0 yields exactly 0.3. -/
theorem C9_amended :
    (∀ (s : StoredCopySettings) (tx : TxRecord), tx.amount_usd ≤ 0 →
        copy_trade_amount s tx = spec_copy_child_amount s tx) ∧
    (∀ (tx : TxRecord) (ty i o : String) (uid : Nat)
        (s : StoredCopySettings) (m1 m2 : Option ℚ),
        copy_trade_for_user tx ty i o
            ⟨uid, { s with min_trade_amount := m1 }⟩ =
          copy_trade_for_user tx ty i o
            ⟨uid, { s with min_trade_amount := m2 }⟩) ∧
    (∀ (tx : TxRecord) (i o : String) (u : CopyUserDoc),
        u.copy_settings.enabled.getD false = true →
        copy_trade_for_user tx "buy" i o u =
          (if copy_trade_amount u.copy_settings tx < 1/100 then none
           else some { subscriber := u.user_id,
                       source_signature := tx.signature, direction := "buy",
                       token := o,
                       amount := copy_trade_amount u.copy_settings tx })) ∧
    copy_trade_amount
        { enabled := some true, copy_percentage := some 50,
          max_copy_amount := some (3/10) }
        { signature := "sigX", amount := 1 } = 3/10 := by
  refine ⟨?_, ?_, ?_, ?_⟩
  · intro s tx h
    simp [copy_trade_amount, spec_copy_child_amount, not_lt.mpr h]
  · intro tx ty i o uid s m1 m2
    rfl
  · intro tx i o u he
    simp [copy_trade_for_user, he]
  · with_unfolding_all rfl

/-- Witness for C9 amended: on the 0.2 SOL source trade with no USD
amount the code agrees with the scaled-and-capped formula, and the
enabled subscriber receives the buy with exactly that amount. -/
theorem C9_amended_witness :
    copy_trade_amount c9_settings c9_small_tx =
      spec_copy_child_amount c9_settings c9_small_tx ∧
    copy_trade_for_user c9_small_tx "buy" SOL_MINT "TOK" c9_user =
      (if copy_trade_amount c9_user.copy_settings c9_small_tx < 1/100
       then none
       else some { subscriber := c9_user.user_id,
                   source_signature := c9_small_tx.signature,
                   direction := "buy", token := "TOK",
                   amount := copy_trade_amount c9_user.copy_settings
                     c9_small_tx }) :=
  ⟨C9_amended.1 c9_settings c9_small_tx (by norm_num [c9_small_tx]),
   C9_amended.2.2.1 c9_small_tx SOL_MINT "TOK" c9_user rfl⟩

/-! ## Copy-trading subscription intake (claim C10)

trading_engine.py `subscribe_copy_trading` (lines 646-688) validates the
wallet address, stores the subscription document with is_active true,
and then calls `self.analyzer.add_wallet_monitor`.  `__init__`
(lines 53-60) sets no `analyzer` attribute and no method of that name
exists, so the attribute access raises AttributeError, caught by the
enclosing except, which returns failure — after the insert already
happened. -/

/-- The instance attributes `TradingEngine.__init__` (lines 53-60)
assigns on self. -/
def trading_engine_attrs : List String :=
  ["solana", "db", "payment", "active_orders",
   "copy_trading_subscriptions", "is_running", "price_monitors"]

/-- User-supplied settings overrides (the optional `settings` dict). -/
structure CopySettingsInput where
  enabled : Option Bool := none
  copy_percentage : Option ℚ := none
  max_copy_amount : Option ℚ := none
  min_trade_amount : Option ℚ := none
  copy_delay : Option ℚ := none
  risk_level : Option String := none
deriving DecidableEq

/-- The merged copy settings stored on the subscription document. -/
structure MergedCopySettings where
  enabled : Bool
  copy_percentage : ℚ
  max_copy_amount : ℚ
  min_trade_amount : ℚ
  copy_delay : ℚ
  risk_level : String
deriving DecidableEq

/-- The dict merge on lines 654-664: defaults overridden key by key by
the provided settings. -/
def merge_copy_settings (settings : Option CopySettingsInput) :
    MergedCopySettings :=
  let i := settings.getD {}
  { enabled := i.enabled.getD true,
    copy_percentage := i.copy_percentage.getD 100,
    max_copy_amount := i.max_copy_amount.getD 1,
    min_trade_amount := i.min_trade_amount.getD (1/10),
    copy_delay := i.copy_delay.getD 0,
    risk_level := i.risk_level.getD "medium" }

/-- A document of the copy_trading_subscriptions collection as
`subscribe_copy_trading` stores it (lines 667-673). -/
structure SubscriptionDoc where
  user_id : Nat
  wallet_address : String
  copy_settings : MergedCopySettings
  is_active : Bool
deriving DecidableEq

/-- Outcome of `subscribe_copy_trading`.  Each constructor stands for the
returned message; `attribute_error` is the except path hit when
`self.analyzer` does not exist. -/
inductive SubscribeOutcome
| invalid_wallet_address   -- (False, "Invalid wallet address")
| store_failed             -- (False, "Failed to store subscription")
| attribute_error          -- (False, "Error: ... no attribute ...")
| subscribed               -- (True, "Successfully subscribed ...")
deriving DecidableEq

/-- trading_engine.py `subscribe_copy_trading` (lines 646-688).
`engine_names` is the set of attribute and method names resolvable on
the engine object; `validate_ok` the `validate_address` oracle and
`store_ok` the insert outcome.  Returns the subscriptions collection
after the call together with the reported outcome. -/
def subscribe_copy_trading (engine_names : List String)
    (validate_ok store_ok : Bool) (subs : List SubscriptionDoc)
    (user_id : Nat) (wallet_address : String)
    (settings : Option CopySettingsInput) :
    List SubscriptionDoc × SubscribeOutcome :=
  if ¬ validate_ok then (subs, .invalid_wallet_address)
  else
    let copy_settings := merge_copy_settings settings
    let doc : SubscriptionDoc :=
      { user_id := user_id, wallet_address := wallet_address,
        copy_settings := copy_settings, is_active := true }
    if store_ok then
      let subs2 := subs ++ [doc]
      if "analyzer" ∈ engine_names then (subs2, .subscribed)
      else (subs2, .attribute_error)
    else (subs, .store_failed)

/-- Claim C10: whenever address validation and the insert succeed, the
call stores the subscription as active yet still reports failure,
because no `analyzer` name is resolvable on the engine — the success
outcome is unreachable on this path. -/
theorem C10_subscribe_reports_failure (validate_ok store_ok : Bool)
    (subs : List SubscriptionDoc) (user_id : Nat) (wallet_address : String)
    (settings : Option CopySettingsInput)
    (hv : validate_ok = true) (hs : store_ok = true) :
    (subscribe_copy_trading (trading_engine_attrs ++ trading_engine_methods)
        validate_ok store_ok subs user_id wallet_address settings).2 =
      .attribute_error ∧
    { user_id := user_id, wallet_address := wallet_address,
      copy_settings := merge_copy_settings settings, is_active := true } ∈
      (subscribe_copy_trading (trading_engine_attrs ++ trading_engine_methods)
        validate_ok store_ok subs user_id wallet_address settings).1 := by
  subst hv hs
  have hna : ("analyzer" ∈ trading_engine_attrs ++ trading_engine_methods)
      = False := by
    simp [trading_engine_attrs, trading_engine_methods]
  constructor
  · simp [subscribe_copy_trading, hna]
  · simp [subscribe_copy_trading, hna]

/-- Witness for C10: the concrete successful-path call stores the active
record and still reports the attribute error. -/
theorem C10_subscribe_reports_failure_witness :
    (subscribe_copy_trading (trading_engine_attrs ++ trading_engine_methods)
        true true [] 1 "wallet1" none).2 = .attribute_error ∧
    { user_id := 1, wallet_address := "wallet1",
      copy_settings := merge_copy_settings none, is_active := true } ∈
      (subscribe_copy_trading (trading_engine_attrs ++ trading_engine_methods)
        true true [] 1 "wallet1" none).1 :=
  C10_subscribe_reports_failure true true [] 1 "wallet1" none rfl rfl

end TradingBot
